import Mathlib

/-!
Shallow embedding of the SharkTracker HSI service (src/app.py) and proofs
about it.  Machine floats are modelled by exact rationals (ℚ); a float NaN
("missing value") is modelled by `none` in `Option ℚ`.  The cosine in the
seasonal score is modelled with `Real.cos`, so the fused HSI lives in ℝ.
Arrays are modelled cell-wise (the numpy code is elementwise data-parallel),
and the request grid by index functions `ℕ → ℕ → Option ℚ`.
-/

/-- Preference descriptor for one environmental variable, from the
`preferences` entries of `SHARK_MODELS` in app.py: `optimal` interval
`(optLo, optHi)`, `tolerance` interval `(tolLo, tolHi)`, and the
`is_low_temp_opt` reversed-orientation flag (default `False`). -/
structure Pref where
  optLo : ℚ
  optHi : ℚ
  tolLo : ℚ
  tolHi : ℚ
  is_low_temp_opt : Bool := false
deriving DecidableEq

/-- `np.clip(x, 0.0, 1.0)` on a single cell (app.py line 193). -/
def clip01 (q : ℚ) : ℚ := max 0 (min 1 q)

/-- One cell of the masked-assignment core of `vectorized_normalize_preference`
(app.py lines 183-191): `out` starts at 0, cells of `mask_opt` are assigned 1,
then cells of `mask_left` are assigned the left ramp provided its denominator
is nonzero, then cells of `mask_right` the right ramp provided its denominator
is nonzero; a later assignment overwrites an earlier one, so the right ramp
has the highest priority, then the left ramp, then the optimal region. -/
def tentRaw (olo ohi tlo thi x : ℚ) : ℚ :=
  if ohi < x ∧ x ≤ thi ∧ thi - ohi ≠ 0 then (thi - x) / (thi - ohi)
  else if tlo ≤ x ∧ x < olo ∧ olo - tlo ≠ 0 then (x - tlo) / (olo - tlo)
  else if olo ≤ x ∧ x ≤ ohi then 1
  else 0

/-- One cell of `vectorized_normalize_preference` (app.py lines 158-193).
A NaN cell (`none`) is assigned 0 and, since every numpy comparison with NaN
is False, belongs to no mask, so it stays 0 through the clip.  When
`is_low_temp_opt` is set the code evaluates the same mask logic on
`vals_proc = -vals` with bounds `(-opt_max, -opt_min)` and
`(-tol_max, -tol_min)` (lines 168-181); otherwise on the values and bounds
as given (lines 182-191).  The result is clipped to [0,1] (line 193). -/
def vectorized_normalize_preference (p : Pref) (v : Option ℚ) : ℚ :=
  match v with
  | none => 0
  | some x =>
      if p.is_low_temp_opt then
        clip01 (tentRaw (-p.optHi) (-p.optLo) (-p.tolHi) (-p.tolLo) (-x))
      else
        clip01 (tentRaw p.optLo p.optHi p.tolLo p.tolHi x)

/-- One cell of `vectorized_eddy_score` (app.py lines 196-208).
`out` starts at 0.5 everywhere; cells with value `> 0.05` and `< -0.05` are
assigned 1/0 (or 0/1 when the preferred polarity is not "anticyclonic"), and
finally NaN cells are assigned 0.  `anticyclonic` is `true` when
`eddy_pref.get("preferred", "anticyclonic") == "anticyclonic"`. -/
def vectorized_eddy_score (anticyclonic : Bool) (v : Option ℚ) : ℚ :=
  match v with
  | none => 0
  | some x =>
      if x > 1/20 then (if anticyclonic then 1 else 0)
      else if x < -(1/20) then (if anticyclonic then 0 else 1)
      else 1/2

/-- `season_score_scalar` (app.py lines 211-216) with the date already
reduced to its month: `(cos(2·pi·peak/12 - 2·pi·month/12) + 1) / 2`. -/
noncomputable def season_score_scalar (peak month : ℕ) : ℝ :=
  (Real.cos (2 * Real.pi * (peak / 12) - 2 * Real.pi * (month / 12)) + 1) / 2

-- Sanity checks on the Great White SST descriptor.
example :
    vectorized_normalize_preference ⟨15, 22, 10, 28, false⟩ (some 18) = 1 := by
  norm_num [vectorized_normalize_preference, tentRaw, clip01]

example :
    vectorized_normalize_preference ⟨15, 22, 10, 28, false⟩ (some 12) = 2/5 := by
  norm_num [vectorized_normalize_preference, tentRaw, clip01]

example :
    vectorized_normalize_preference ⟨15, 22, 10, 28, false⟩ (some 9) = 0 := by
  norm_num [vectorized_normalize_preference, tentRaw, clip01]

example : vectorized_eddy_score true (some (1/20)) = 1/2 := by
  norm_num [vectorized_eddy_score]

/-- The preference descriptors of one species: the four keys "SST", "CHL-A",
"SSHa", "BATHY" of a `preferences` dict in `SHARK_MODELS`. -/
structure Preferences where
  sstP : Pref
  chlaP : Pref
  sshaP : Pref
  bathyP : Pref
deriving DecidableEq

/-- One entry of `SHARK_MODELS`: a weight dict and a preference dict. -/
structure SharkModel where
  weights : List (String × ℚ)
  preferences : Preferences

/-- The `SHARK_MODELS` table of app.py (lines 15-91), transcribed with exact
rational literals.  Each `Pref` is `(optLo, optHi, tolLo, tolHi, flag)`. -/
def SHARK_MODELS : List (String × SharkModel) :=
  [ ("Great White Shark",
      { weights := [("SST", 0.35), ("CHL-A", 0.10), ("SSHa", 0.35), ("BATHY", 0.20)],
        preferences :=
          { sstP := ⟨15, 22, 10, 28, false⟩,
            chlaP := ⟨0.2, 2.0, 0.1, 5.0, false⟩,
            sshaP := ⟨0.05, 0.2, -0.1, 0.3, false⟩,
            bathyP := ⟨20, 200, 5, 1000, false⟩ } }),
    ("Tiger Shark",
      { weights := [("SST", 0.40), ("CHL-A", 0.10), ("SSHa", 0.20), ("BATHY", 0.30)],
        preferences :=
          { sstP := ⟨22, 28, 20, 30, false⟩,
            chlaP := ⟨0.2, 2.0, 0.1, 5.0, false⟩,
            sshaP := ⟨0.05, 0.2, -0.1, 0.3, false⟩,
            bathyP := ⟨5, 100, 1, 500, false⟩ } }),
    ("Whale Shark",
      { weights := [("SST", 0.30), ("CHL-A", 0.40), ("SSHa", 0.10), ("BATHY", 0.20)],
        preferences :=
          { sstP := ⟨26, 30, 21, 32, false⟩,
            chlaP := ⟨1.0, 5.0, 0.5, 10.0, false⟩,
            sshaP := ⟨0.05, 0.2, -0.1, 0.3, false⟩,
            bathyP := ⟨20, 500, 5, 2000, false⟩ } }),
    ("Bull Shark",
      { weights := [("SST", 0.40), ("CHL-A", 0.20), ("SSHa", 0.10), ("BATHY", 0.30)],
        preferences :=
          { sstP := ⟨20, 28, 18, 30, false⟩,
            chlaP := ⟨0.5, 3.0, 0.1, 6.0, false⟩,
            sshaP := ⟨0.05, 0.2, -0.1, 0.3, false⟩,
            bathyP := ⟨1, 50, 0, 200, false⟩ } }),
    ("Greenland Shark",
      { weights := [("SST", 0.20), ("CHL-A", 0.05), ("SSHa", 0.05), ("BATHY", 0.70)],
        preferences :=
          { sstP := ⟨-1.8, 5.0, -2.0, 10.0, true⟩,
            chlaP := ⟨0.1, 1.0, 0.05, 3.0, false⟩,
            sshaP := ⟨0.0, 0.0, -0.1, 0.1, false⟩,
            bathyP := ⟨400, 1500, 200, 3000, false⟩ } }),
    ("Reef Shark",
      { weights := [("SST", 0.40), ("CHL-A", 0.05), ("SSHa", 0.05), ("BATHY", 0.50)],
        preferences :=
          { sstP := ⟨24, 28, 22, 30, false⟩,
            chlaP := ⟨0.1, 1.0, 0.05, 2.0, false⟩,
            sshaP := ⟨0.05, 0.2, -0.1, 0.3, false⟩,
            bathyP := ⟨10, 60, 5, 200, false⟩ } }),
    ("Shortfin Mako Shark",
      { weights := [("SST", 0.45), ("CHL-A", 0.05), ("SSHa", 0.40), ("BATHY", 0.10)],
        preferences :=
          { sstP := ⟨20, 28, 18, 30, false⟩,
            chlaP := ⟨0.1, 0.5, 0.05, 1.0, false⟩,
            sshaP := ⟨0.1, 0.3, 0.0, 0.4, false⟩,
            bathyP := ⟨500, 5000, 150, 5000, false⟩ } }),
    ("shortfin_mako",
      { weights := [("SST", 0.40), ("CHL-A", 0.10), ("SSHa", 0.30), ("BATHY", 0.20)],
        preferences :=
          { sstP := ⟨16, 25, 12, 28, false⟩,
            chlaP := ⟨0.1, 0.8, 0.05, 2.0, false⟩,
            sshaP := ⟨0.05, 0.2, -0.1, 0.3, false⟩,
            bathyP := ⟨100, 1000, 50, 2000, false⟩ } }) ]

/-- The `FILE_MAP` of app.py (lines 98-121): date string to the
(CHL-A file, SST file, SSHa file) triple. -/
def FILE_MAP : List (String × (String × String × String)) :=
  [ ("2025-08-08", ("AQUA_MODIS.20250805_20250812.L3m.8D.CHL.chlor_a.4km.NRT.nc", "AQUA_MODIS.20250805_20250812.L3m.8D.SST.sst.4km.nc", "nrt_global_allsat_phy_l4_20250808_20250814.nc")),
    ("2025-08-09", ("AQUA_MODIS.20250805_20250812.L3m.8D.CHL.chlor_a.4km.NRT.nc", "AQUA_MODIS.20250805_20250812.L3m.8D.SST.sst.4km.nc", "nrt_global_allsat_phy_l4_20250808_20250814.nc")),
    ("2025-08-10", ("AQUA_MODIS.20250805_20250812.L3m.8D.CHL.chlor_a.4km.NRT.nc", "AQUA_MODIS.20250805_20250812.L3m.8D.SST.sst.4km.nc", "nrt_global_allsat_phy_l4_20250808_20250814.nc")),
    ("2025-08-11", ("AQUA_MODIS.20250805_20250812.L3m.8D.CHL.chlor_a.4km.NRT.nc", "AQUA_MODIS.20250805_20250812.L3m.8D.SST.sst.4km.nc", "nrt_global_allsat_phy_l4_20250808_20250814.nc")),
    ("2025-08-12", ("AQUA_MODIS.20250805_20250812.L3m.8D.CHL.chlor_a.4km.NRT.nc", "AQUA_MODIS.20250805_20250812.L3m.8D.SST.sst.4km.nc", "nrt_global_allsat_phy_l4_20250808_20250814.nc")),
    ("2025-08-13", ("AQUA_MODIS.20250805_20250812.L3m.8D.CHL.chlor_a.4km.NRT.nc", "AQUA_MODIS.20250805_20250812.L3m.8D.SST.sst.4km.nc", "nrt_global_allsat_phy_l4_20250808_20250814.nc")),
    ("2025-08-14", ("AQUA_MODIS.20250805_20250812.L3m.8D.CHL.chlor_a.4km.NRT.nc", "AQUA_MODIS.20250805_20250812.L3m.8D.SST.sst.4km.nc", "nrt_global_allsat_phy_l4_20250808_20250814.nc")),
    ("2025-08-15", ("AQUA_MODIS.20250813_20250820.L3m.8D.CHL.chlor_a.4km.NRT.nc", "AQUA_MODIS.20250813_20250820.L3m.8D.SST.sst.4km.nc", "nrt_global_allsat_phy_l4_20250815_20250821.nc")),
    ("2025-08-16", ("AQUA_MODIS.20250813_20250820.L3m.8D.CHL.chlor_a.4km.NRT.nc", "AQUA_MODIS.20250813_20250820.L3m.8D.SST.sst.4km.nc", "nrt_global_allsat_phy_l4_20250815_20250821.nc")),
    ("2025-08-17", ("AQUA_MODIS.20250813_20250820.L3m.8D.CHL.chlor_a.4km.NRT.nc", "AQUA_MODIS.20250813_20250820.L3m.8D.SST.sst.4km.nc", "nrt_global_allsat_phy_l4_20250815_20250821.nc")),
    ("2025-08-18", ("AQUA_MODIS.20250813_20250820.L3m.8D.CHL.chlor_a.4km.NRT.nc", "AQUA_MODIS.20250813_20250820.L3m.8D.SST.sst.4km.nc", "nrt_global_allsat_phy_l4_20250815_20250821.nc")),
    ("2025-08-19", ("AQUA_MODIS.20250813_20250820.L3m.8D.CHL.chlor_a.4km.NRT.nc", "AQUA_MODIS.20250813_20250820.L3m.8D.SST.sst.4km.nc", "nrt_global_allsat_phy_l4_20250815_20250821.nc")),
    ("2025-08-20", ("AQUA_MODIS.20250813_20250820.L3m.8D.CHL.chlor_a.4km.NRT.nc", "AQUA_MODIS.20250813_20250820.L3m.8D.SST.sst.4km.nc", "nrt_global_allsat_phy_l4_20250815_20250821.nc")),
    ("2025-08-21", ("AQUA_MODIS.20250813_20250820.L3m.8D.CHL.chlor_a.4km.NRT.nc", "AQUA_MODIS.20250813_20250820.L3m.8D.SST.sst.4km.nc", "nrt_global_allsat_phy_l4_20250815_20250821.nc")),
    ("2025-08-22", ("AQUA_MODIS.20250821_20250828.L3m.8D.CHL.chlor_a.4km.NRT.nc", "AQUA_MODIS.20250821_20250828.L3m.8D.SST.sst.4km.nc", "nrt_global_allsat_phy_l4_20250822_20250828.nc")),
    ("2025-08-23", ("AQUA_MODIS.20250821_20250828.L3m.8D.CHL.chlor_a.4km.NRT.nc", "AQUA_MODIS.20250821_20250828.L3m.8D.SST.sst.4km.nc", "nrt_global_allsat_phy_l4_20250822_20250828.nc")),
    ("2025-08-24", ("AQUA_MODIS.20250821_20250828.L3m.8D.CHL.chlor_a.4km.NRT.nc", "AQUA_MODIS.20250821_20250828.L3m.8D.SST.sst.4km.nc", "nrt_global_allsat_phy_l4_20250822_20250828.nc")),
    ("2025-08-25", ("AQUA_MODIS.20250821_20250828.L3m.8D.CHL.chlor_a.4km.NRT.nc", "AQUA_MODIS.20250821_20250828.L3m.8D.SST.sst.4km.nc", "nrt_global_allsat_phy_l4_20250822_20250828.nc")),
    ("2025-08-26", ("AQUA_MODIS.20250821_20250828.L3m.8D.CHL.chlor_a.4km.NRT.nc", "AQUA_MODIS.20250821_20250828.L3m.8D.SST.sst.4km.nc", "nrt_global_allsat_phy_l4_20250822_20250828.nc")),
    ("2025-08-27", ("AQUA_MODIS.20250821_20250828.L3m.8D.CHL.chlor_a.4km.NRT.nc", "AQUA_MODIS.20250821_20250828.L3m.8D.SST.sst.4km.nc", "nrt_global_allsat_phy_l4_20250822_20250828.nc")),
    ("2025-08-28", ("AQUA_MODIS.20250821_20250828.L3m.8D.CHL.chlor_a.4km.NRT.nc", "AQUA_MODIS.20250821_20250828.L3m.8D.SST.sst.4km.nc", "nrt_global_allsat_phy_l4_20250822_20250828.nc")) ]

/-- `get_dataset_paths` (app.py lines 219-227): looks the raw date string up
in `FILE_MAP`, raising `ValueError(f"No mapped files for {date_str}")` when
absent (modelled as `Except.error` with that message); directory joining is
dropped as pure path formatting. -/
def get_dataset_paths (dateStr : String) : Except String (String × String × String) :=
  match FILE_MAP.lookup dateStr with
  | none => Except.error ("No mapped files for " ++ dateStr)
  | some t => Except.ok t

/-- A pandas `Timestamp`: a calendar date together with a time of day.
`pd.to_datetime` of a plain date string gives midnight. -/
structure Timestamp where
  year : ℕ
  month : ℕ
  day : ℕ
  hour : ℕ
  minute : ℕ
  second : ℕ
deriving DecidableEq

/-- Order-faithful key for comparing timestamps at second granularity
(valid because the parser bounds hour, minute and second). -/
def timeKey (t : Timestamp) : ℕ :=
  (t.year * 10000 + t.month * 100 + t.day) * 86400 +
    t.hour * 3600 + t.minute * 60 + t.second

/-- `TIME_START = pd.to_datetime("2025-08-08")` (app.py line 94): midnight. -/
def TIME_START : Timestamp := ⟨2025, 8, 8, 0, 0, 0⟩

/-- `TIME_END = pd.to_datetime("2025-08-28")` (app.py line 95): midnight. -/
def TIME_END : Timestamp := ⟨2025, 8, 28, 0, 0, 0⟩

/-- Numeric value of a two-digit field. -/
def digits2 (a b : Char) : ℕ := (a.toNat - 48) * 10 + (b.toNat - 48)

/-- The time-of-day part of an ISO timestamp string: exactly `HH:MM` or
`HH:MM:SS`, digits only; anything else fails. -/
def parseTime (cs : List Char) : Option (ℕ × ℕ × ℕ) :=
  match cs with
  | [h1, h2, ':', m1, m2] =>
      if h1.isDigit && h2.isDigit && m1.isDigit && m2.isDigit then
        some (digits2 h1 h2, digits2 m1 m2, 0)
      else none
  | [h1, h2, ':', m1, m2, ':', s1, s2] =>
      if h1.isDigit && h2.isDigit && m1.isDigit && m2.isDigit &&
         s1.isDigit && s2.isDigit then
        some (digits2 h1 h2, digits2 m1 m2, digits2 s1 s2)
      else none
  | _ => none

/-- Models `pd.to_datetime` (an external library call) restricted to
ISO-format inputs: `YYYY-MM-DD`, all digits with month in 1..12 and day in
1..31, optionally followed by a `T` or space separator and an `HH:MM` or
`HH:MM:SS` time with in-range fields, parses to that timestamp (midnight
when no time is given).  Any other string of this grammar — including a
malformed time suffix — is a parse failure, matching the exception pandas
raises (turned into a 500 by the endpoint's blanket `except`).  Pandas also
accepts some non-ISO formats and performs exact day-in-month validation;
those inputs are outside this model and no claim exercises them. -/
def parseDate (s : String) : Option Timestamp :=
  match s.toList with
  | a :: b :: c :: d :: '-' :: e :: f :: '-' :: g :: h :: rest =>
      if a.isDigit && b.isDigit && c.isDigit && d.isDigit && e.isDigit &&
         f.isDigit && g.isDigit && h.isDigit then
        let y := (a.toNat - 48) * 1000 + (b.toNat - 48) * 100 +
          (c.toNat - 48) * 10 + (d.toNat - 48)
        let mo := digits2 e f
        let da := digits2 g h
        if 1 ≤ mo && mo ≤ 12 && 1 ≤ da && da ≤ 31 then
          match rest with
          | [] => some ⟨y, mo, da, 0, 0, 0⟩
          | sep :: timeCs =>
              if sep == 'T' || sep == ' ' then
                match parseTime timeCs with
                | some (hh, mi, ss) =>
                    if hh ≤ 23 && mi ≤ 59 && ss ≤ 59 then
                      some ⟨y, mo, da, hh, mi, ss⟩
                    else none
                | none => none
              else none
        else none
      else none
  | _ => none

example : parseDate "2025-08-08" = some ⟨2025, 8, 8, 0, 0, 0⟩ := by decide
example : parseDate "2025-08-15T00:00" = some ⟨2025, 8, 15, 0, 0, 0⟩ := by decide
example : parseDate "2025-08-28T12:00" = some ⟨2025, 8, 28, 12, 0, 0⟩ := by decide
example : parseDate "2025-08-28 12:30:05" = some ⟨2025, 8, 28, 12, 30, 5⟩ := by decide
example : parseDate "2025-08-15Txyz" = none := by decide
example : parseDate "2025-08-15T99:99" = none := by decide
example : parseDate "2025-13-01" = none := by decide
example : parseDate "garbage" = none := by decide

/-- `d.get(k, 0)` on a weight dict modelled as an association list. -/
def wget (w : List (String × ℚ)) (k : String) : ℚ :=
  (w.lookup k).getD 0

/-- `base.update(upd)` on python dicts, modelled for lookup purposes: a key
present in `upd` resolves to its `upd` value, otherwise to its `base` value
(`List.lookup` takes the first match). -/
def dict_update (base upd : List (String × ℚ)) : List (String × ℚ) :=
  upd ++ base

/-- The tolerance of `np.isclose(total_weight, 1.0)` with numpy's defaults
`rtol=1e-05, atol=1e-08`: `|a - 1| <= atol + rtol * |1.0|`. -/
def iscloseTol : ℚ := 1/100000000 + 1/100000

/-- The weight-sum acceptance test of app.py lines 255-256:
`np.isclose(sum(user_weights.values()), 1.0)`. -/
def weight_sum_ok (uw : List (String × ℚ)) : Bool :=
  decide (|(uw.map Prod.snd).sum - 1| ≤ iscloseTol)

/-- A caller-supplied per-variable preference override (app.py lines 262-268):
either or both of `optimal` and `tolerance` may be replaced. -/
structure PrefOverride where
  optimal : Option (ℚ × ℚ) := none
  tolerance : Option (ℚ × ℚ) := none

/-- Applies one override to one descriptor: replacing `optimal` and/or
`tolerance` in the copied dict keeps every other key, in particular the
`is_low_temp_opt` flag. -/
def apply_override (p : Pref) (o : Option PrefOverride) : Pref :=
  match o with
  | none => p
  | some ov =>
      let p1 := match ov.optimal with
        | none => p
        | some (lo, hi) => { p with optLo := lo, optHi := hi }
      match ov.tolerance with
      | none => p1
      | some (lo, hi) => { p1 with tolLo := lo, tolHi := hi }

/-- The override loop of app.py lines 262-268: a key of the user's dict is
applied only when it is one of the four configured variables. -/
def apply_pref_overrides (prefs : Preferences) (ovs : List (String × PrefOverride)) :
    Preferences :=
  { sstP := apply_override prefs.sstP (ovs.lookup "SST"),
    chlaP := apply_override prefs.chlaP (ovs.lookup "CHL-A"),
    sshaP := apply_override prefs.sshaP (ovs.lookup "SSHa"),
    bathyP := apply_override prefs.bathyP (ovs.lookup "BATHY") }

/-- The interpolated raster values at each target grid cell (i, j): the
`chla_vals`, `sst_vals`, `ssha_vals`, `depth_vals` arrays of app.py lines
299-302.  Interpolation itself is the external xarray `interp` call, so its
results are taken as inputs; `none` models a NaN cell (a point outside the
source raster's coverage). -/
structure FieldData where
  chla : ℕ → ℕ → Option ℚ
  sst : ℕ → ℕ → Option ℚ
  ssha : ℕ → ℕ → Option ℚ
  elevation : ℕ → ℕ → Option ℚ

/-- `depth_inv = -np.array(depth_vals)` (app.py line 305); negating NaN
gives NaN. -/
def depth_inv (fd : FieldData) (i j : ℕ) : Option ℚ :=
  (fd.elevation i j).map (fun e => -e)

/-- `ocean_mask = depth_inv > 0` (app.py line 306); a NaN comparison is
False in numpy, so a NaN depth cell is outside the mask. -/
def ocean_mask (fd : FieldData) (i j : ℕ) : Bool :=
  match depth_inv fd i j with
  | none => false
  | some d => decide (0 < d)

/-- `np.linspace(a, b, n)` at index `i` (app.py lines 279-280): for `n >= 2`
the endpoint-inclusive arithmetic progression, for `n = 1` the start value. -/
def linspace (a b : ℚ) (n i : ℕ) : ℚ :=
  if n ≤ 1 then a else a + i * (b - a) / ((n : ℚ) - 1)

/-- The rational part of one cell of `final_hsi` (app.py lines 319-326): the
five weighted layers that do not involve the cosine.  Each normalized layer
is computed from the unmasked interpolated arrays (lines 308-312), the BATHY
layer from `depth_inv`, and the eddy layer with
`{"preferred": "anticyclonic"}` (line 312). -/
def hsi_rat (w : List (String × ℚ)) (prefs : Preferences) (fd : FieldData)
    (i j : ℕ) : ℚ :=
  wget w "SST" * vectorized_normalize_preference prefs.sstP (fd.sst i j) +
  wget w "CHL-A" * vectorized_normalize_preference prefs.chlaP (fd.chla i j) +
  wget w "SSHa" * vectorized_normalize_preference prefs.sshaP (fd.ssha i j) +
  wget w "BATHY" * vectorized_normalize_preference prefs.bathyP (depth_inv fd i j) +
  wget w "EDDY" * vectorized_eddy_score true (fd.ssha i j)

/-- One cell of `final_hsi` (app.py lines 315-326): the five rational layers
plus the seasonal layer, which is the scalar
`season_score_scalar(target_date, {"peak_month": target_date.month})`
broadcast over the grid (lines 315-316), weighted by the "SEASON" weight. -/
noncomputable def final_hsi (w : List (String × ℚ)) (prefs : Preferences)
    (month : ℕ) (fd : FieldData) (i j : ℕ) : ℝ :=
  (hsi_rat w prefs fd i j : ℝ) +
    (wget w "SEASON" : ℝ) * season_score_scalar month month

/-- One output record (app.py lines 339-343). -/
structure OutPoint where
  lat : ℚ
  lon : ℚ
  hsi : ℝ

/-- Models app.py lines 328-331: `final_hsi = np.squeeze(final_hsi)` then
`final_hsi[~ocean_mask] = np.nan`.  On the `(n, n)` fused surface `squeeze`
is the identity for `n ≠ 1`, but for `n = 1` it collapses the `(1, 1)` array
to a 0-dimensional one, and the following assignment indexes it with the
`(1, 1)` boolean mask, raising `IndexError` — caught by the blanket `except`
and returned as a 500 with the error's text. -/
def squeeze_mask_assign (n : ℕ) : Except String Unit :=
  if n = 1 then
    Except.error "too many indices for array: array is 0-dimensional, but 2 were indexed"
  else Except.ok ()

/-- The result loop of app.py lines 335-343, reached only when the masked
assignment of line 331 (see `squeeze_mask_assign`) did not raise: the double
loop walks the grid row-major and emits every non-NaN cell.  In-mask cells
are never NaN (every layer is a total rational/real value), so the NaN test
coincides with the mask test.  `lat_mesh[i, j] = lats[i]` and
`lon_mesh[i, j] = lons[j]` by `np.meshgrid`. -/
noncomputable def results_list (w : List (String × ℚ)) (prefs : Preferences)
    (month : ℕ) (fd : FieldData) (latMin latMax lonMin lonMax : ℚ) (n : ℕ) :
    List OutPoint :=
  (List.range n).flatMap (fun i =>
    (List.range n).filterMap (fun j =>
      if ocean_mask fd i j then
        some ⟨linspace latMin latMax n i, linspace lonMin lonMax n j,
              final_hsi w prefs month fd i j⟩
      else none))

/-- A `/calculate_hsi` request body after the orchestrator's field parsing:
the bounding box floats, the raw date string, the shark type (with the
`data.get("shark_type", "Great White Shark")` default already applied), the
optional weight and preference overrides (empty when absent), and `n_points`
(default 100 already applied). -/
structure Request where
  latMin : ℚ
  latMax : ℚ
  lonMin : ℚ
  lonMax : ℚ
  date : String
  sharkType : String
  weights : List (String × ℚ)
  prefOverrides : List (String × PrefOverride)
  nPoints : ℕ

/-- The three response shapes of the endpoint: a 200 payload, a 400
validation rejection (`jsonify({"error": msg}), 400`), and the blanket
`except`'s 500 response (`jsonify({"error": str(e)}), 500`, line 349). -/
inductive HsiResponse where
  | ok : List OutPoint → String → HsiResponse
  | badRequest : String → HsiResponse
  | serverError : String → HsiResponse

/-- Classifies a response as an input-validation rejection (HTTP 400). -/
def HsiResponse.isValidationError : HsiResponse → Bool
  | HsiResponse.badRequest _ => true
  | _ => false

/-- The `/calculate_hsi` endpoint (app.py lines 232-349), with the external
dataset reads abstracted into the already-interpolated `FieldData`:
1. unknown shark type → 400 (lines 243-244);
2. a nonempty user weight dict failing `np.isclose(sum, 1.0)` → 400
   (lines 253-257), otherwise merged into the model's weights by
   `dict.update` (line 258);
3. preference overrides applied (lines 262-268);
4. `pd.to_datetime` failure → the blanket handler's 500 (lines 272, 347-349);
5. parsed timestamp outside `[TIME_START, TIME_END]` (full-timestamp
   comparison, so a within-range day with a nonzero time of day is out of
   range) → 400 (lines 273-274);
6. raw date string absent from `FILE_MAP` → `ValueError` from
   `get_dataset_paths`, caught by the blanket handler → 500 (line 276);
7. `np.squeeze` plus the masked assignment (lines 328-331), which raises on
   a single-point grid → 500;
8. otherwise the row-major point list with its count message (line 345). -/
noncomputable def calculate_hsi (fd : FieldData) (req : Request) : HsiResponse :=
  match SHARK_MODELS.lookup req.sharkType with
  | none => HsiResponse.badRequest ("Unknown shark type: " ++ req.sharkType)
  | some model =>
      if !req.weights.isEmpty && !weight_sum_ok req.weights then
        HsiResponse.badRequest "Weights must sum to 1.0"
      else
        let w := dict_update model.weights req.weights
        let prefs := apply_pref_overrides model.preferences req.prefOverrides
        match parseDate req.date with
        | none => HsiResponse.serverError "Unknown datetime string format"
        | some d =>
            if !(decide (timeKey TIME_START ≤ timeKey d) &&
                 decide (timeKey d ≤ timeKey TIME_END)) then
              HsiResponse.badRequest "Date out of range"
            else
              match get_dataset_paths req.date with
              | Except.error msg => HsiResponse.serverError msg
              | Except.ok _ =>
                  match squeeze_mask_assign req.nPoints with
                  | Except.error msg => HsiResponse.serverError msg
                  | Except.ok _ =>
                      let pts := results_list w prefs d.month fd req.latMin
                        req.latMax req.lonMin req.lonMax req.nPoints
                      HsiResponse.ok pts
                        ("HSI computed for " ++ toString pts.length ++ " points")

/-! ## Helper lemmas -/

lemma clip01_nonneg (q : ℚ) : 0 ≤ clip01 q := le_max_left 0 _

lemma clip01_le_one (q : ℚ) : clip01 q ≤ 1 :=
  max_le (by norm_num) (min_le_left 1 q)

lemma clip01_of_unit {q : ℚ} (h0 : 0 ≤ q) (h1 : q ≤ 1) : clip01 q = q := by
  unfold clip01
  rw [min_eq_right h1, max_eq_right h0]

lemma normalize_std (olo ohi tlo thi x : ℚ) :
    vectorized_normalize_preference ⟨olo, ohi, tlo, thi, false⟩ (some x) =
      clip01 (tentRaw olo ohi tlo thi x) := rfl

lemma normalize_rev (olo ohi tlo thi x : ℚ) :
    vectorized_normalize_preference ⟨olo, ohi, tlo, thi, true⟩ (some x) =
      clip01 (tentRaw (-ohi) (-olo) (-thi) (-tlo) (-x)) := rfl

lemma normalize_mem_unit (p : Pref) (v : Option ℚ) :
    0 ≤ vectorized_normalize_preference p v ∧
      vectorized_normalize_preference p v ≤ 1 := by
  cases v with
  | none => simp [vectorized_normalize_preference]
  | some x =>
      unfold vectorized_normalize_preference
      split_ifs <;> exact ⟨clip01_nonneg _, clip01_le_one _⟩

/-! ## C1: the normalization function is the spec's tent curve -/

/-- C1.  For every standard-orientation preference descriptor satisfying the
interval-ordering invariant `tolLo ≤ optLo ≤ optHi ≤ tolHi` and every finite
value `v`: the output is 1 on `[optLo, optHi]`, the left ramp
`(v - tolLo)/(optLo - tolLo)` on `[tolLo, optLo)`, the right ramp
`(tolHi - v)/(tolHi - optHi)` on `(optHi, tolHi]`, and 0 outside
`[tolLo, tolHi]`; a missing (NaN) input yields exactly 0; and every output
lies in `[0, 1]`. -/
theorem C1_normalize_tent (olo ohi tlo thi : ℚ) (hord1 : tlo ≤ olo)
    (hord2 : olo ≤ ohi) (hord3 : ohi ≤ thi) (v : ℚ) :
    (olo ≤ v → v ≤ ohi →
      vectorized_normalize_preference ⟨olo, ohi, tlo, thi, false⟩ (some v) = 1) ∧
    (tlo ≤ v → v < olo →
      vectorized_normalize_preference ⟨olo, ohi, tlo, thi, false⟩ (some v) =
        (v - tlo) / (olo - tlo)) ∧
    (ohi < v → v ≤ thi →
      vectorized_normalize_preference ⟨olo, ohi, tlo, thi, false⟩ (some v) =
        (thi - v) / (thi - ohi)) ∧
    (v < tlo ∨ thi < v →
      vectorized_normalize_preference ⟨olo, ohi, tlo, thi, false⟩ (some v) = 0) ∧
    vectorized_normalize_preference ⟨olo, ohi, tlo, thi, false⟩ none = 0 ∧
    0 ≤ vectorized_normalize_preference ⟨olo, ohi, tlo, thi, false⟩ (some v) ∧
    vectorized_normalize_preference ⟨olo, ohi, tlo, thi, false⟩ (some v) ≤ 1 := by
  refine ⟨?_, ?_, ?_, ?_, rfl, (normalize_mem_unit _ _).1, (normalize_mem_unit _ _).2⟩
  · intro hv1 hv2
    rw [normalize_std]
    unfold tentRaw
    split_ifs with hA hB hC
    · exact absurd hA.1 (not_lt.2 hv2)
    · exact absurd hB.2.1 (not_lt.2 hv1)
    · norm_num [clip01]
    · exact absurd ⟨hv1, hv2⟩ hC
  · intro hv1 hv2
    have hlt : tlo < olo := lt_of_le_of_lt hv1 hv2
    rw [normalize_std]
    unfold tentRaw
    split_ifs with hA hB hC
    · exact absurd hA.1 (not_lt.2 (by linarith))
    · exact clip01_of_unit (div_nonneg (by linarith) (by linarith))
        ((div_le_one (by linarith)).2 (by linarith))
    · exact absurd ⟨hv1, hv2, sub_ne_zero.2 hlt.ne'⟩ hB
    · exact absurd ⟨hv1, hv2, sub_ne_zero.2 hlt.ne'⟩ hB
  · intro hv1 hv2
    have hlt : ohi < thi := lt_of_lt_of_le hv1 hv2
    rw [normalize_std]
    unfold tentRaw
    split_ifs with hA
    · exact clip01_of_unit (div_nonneg (by linarith) (by linarith))
        ((div_le_one (by linarith)).2 (by linarith))
    all_goals exact absurd ⟨hv1, hv2, sub_ne_zero.2 hlt.ne'⟩ hA
  · intro hv
    rw [normalize_std]
    unfold tentRaw
    rcases hv with hv | hv
    · split_ifs with hA hB hC
      · exact absurd hA.1 (not_lt.2 (by linarith))
      · exact absurd hB.1 (not_le.2 hv)
      · exact absurd hC.1 (not_le.2 (by linarith))
      · norm_num [clip01]
    · split_ifs with hA hB hC
      · exact absurd hA.2.1 (not_le.2 hv)
      · exact absurd hB.2.1 (not_lt.2 (by linarith))
      · exact absurd hC.2 (not_le.2 (by linarith))
      · norm_num [clip01]

/-- Witness for C1 at the Great White SST descriptor `(15, 22, 10, 28)`. -/
theorem C1_normalize_tent_witness :
    vectorized_normalize_preference ⟨15, 22, 10, 28, false⟩ (some 12) =
      (12 - 10) / (15 - 10) ∧
    vectorized_normalize_preference ⟨15, 22, 10, 28, false⟩ none = 0 :=
  ⟨(C1_normalize_tent 15 22 10 28 (by norm_num) (by norm_num) (by norm_num)
      12).2.1 (by norm_num) (by norm_num),
   (C1_normalize_tent 15 22 10 28 (by norm_num) (by norm_num) (by norm_num)
      12).2.2.2.2.1⟩

/-! ## C3: degenerate ramps never divide -/

/-- C3.  When a tolerance bound coincides with the matching optimal bound the
ramp denominator is 0 and the guarded masked assignment is skipped, so that
side is "no ramp": with `tolLo = optLo` every value below `optLo` stays 0 and
the optimal region still scores 1 (the curve jumps 0 to 1); symmetrically
with `tolHi = optHi` every value above `optHi` stays 0.  The same holds in
the reversed (`is_low_temp_opt`) orientation, whose branch carries the same
guards on the mirrored bounds.  No arithmetic fault occurs for any input
(the function is total, a missing cell giving 0). -/
theorem C3_degenerate_ramp_guard (olo ohi tlo thi : ℚ) (hord : olo ≤ ohi) (v : ℚ) :
    (v < olo →
      vectorized_normalize_preference ⟨olo, ohi, olo, thi, false⟩ (some v) = 0) ∧
    (olo ≤ v → v ≤ ohi →
      vectorized_normalize_preference ⟨olo, ohi, olo, thi, false⟩ (some v) = 1) ∧
    (ohi < v →
      vectorized_normalize_preference ⟨olo, ohi, tlo, ohi, false⟩ (some v) = 0) ∧
    (olo ≤ v → v ≤ ohi →
      vectorized_normalize_preference ⟨olo, ohi, tlo, ohi, false⟩ (some v) = 1) ∧
    (v < olo →
      vectorized_normalize_preference ⟨olo, ohi, olo, thi, true⟩ (some v) = 0) ∧
    (olo ≤ v → v ≤ ohi →
      vectorized_normalize_preference ⟨olo, ohi, olo, thi, true⟩ (some v) = 1) ∧
    vectorized_normalize_preference ⟨olo, ohi, olo, thi, false⟩ none = 0 ∧
    vectorized_normalize_preference ⟨olo, ohi, tlo, ohi, false⟩ none = 0 ∧
    vectorized_normalize_preference ⟨olo, ohi, olo, thi, true⟩ none = 0 := by
  refine ⟨?_, ?_, ?_, ?_, ?_, ?_, rfl, rfl, rfl⟩
  · intro hv
    rw [normalize_std]
    unfold tentRaw
    split_ifs with hA hB hC
    · exact absurd hA.1 (not_lt.2 (by linarith))
    · exact absurd hB.2.1 (not_lt.2 hB.1)
    · exact absurd hC.1 (not_le.2 hv)
    · norm_num [clip01]
  · intro hv1 hv2
    rw [normalize_std]
    unfold tentRaw
    split_ifs with hA hB hC
    · exact absurd hA.1 (not_lt.2 hv2)
    · exact absurd hB.2.1 (not_lt.2 hv1)
    · norm_num [clip01]
    · exact absurd ⟨hv1, hv2⟩ hC
  · intro hv
    rw [normalize_std]
    unfold tentRaw
    split_ifs with hA hB hC
    · exact absurd hA.2.1 (not_le.2 hv)
    · exact absurd hB.2.1 (not_lt.2 (by linarith))
    · exact absurd hC.2 (not_le.2 hv)
    · norm_num [clip01]
  · intro hv1 hv2
    rw [normalize_std]
    unfold tentRaw
    split_ifs with hA hB hC
    · exact absurd hA.1 (not_lt.2 hv2)
    · exact absurd hB.2.1 (not_lt.2 hv1)
    · norm_num [clip01]
    · exact absurd ⟨hv1, hv2⟩ hC
  · intro hv
    rw [normalize_rev]
    unfold tentRaw
    split_ifs with hA hB hC
    · exact absurd hA.2.1 (not_le.2 hA.1)
    · exact absurd hB.2.1 (not_lt.2 (by linarith))
    · exact absurd hC.2 (not_le.2 (by linarith))
    · norm_num [clip01]
  · intro hv1 hv2
    rw [normalize_rev]
    unfold tentRaw
    split_ifs with hA hB hC
    · exact absurd hA.2.1 (not_le.2 hA.1)
    · exact absurd hB.2.1 (not_lt.2 (by linarith))
    · norm_num [clip01]
    · exact absurd ⟨by linarith, by linarith⟩ hC

/-- Witness for C3 at the degenerate descriptors `(5, 8, 5, 12)` (left ramp
collapsed, both orientations) and `(5, 8, 3, 8)` (right ramp collapsed). -/
theorem C3_degenerate_ramp_guard_witness :
    vectorized_normalize_preference ⟨5, 8, 5, 12, false⟩ (some 4) = 0 ∧
    vectorized_normalize_preference ⟨5, 8, 5, 12, false⟩ (some 5) = 1 ∧
    vectorized_normalize_preference ⟨5, 8, 3, 8, false⟩ (some 9) = 0 ∧
    vectorized_normalize_preference ⟨5, 8, 5, 12, true⟩ (some 4) = 0 ∧
    vectorized_normalize_preference ⟨5, 8, 5, 12, true⟩ (some 6) = 1 :=
  ⟨(C3_degenerate_ramp_guard 5 8 5 12 (by norm_num) 4).1 (by norm_num),
   (C3_degenerate_ramp_guard 5 8 5 12 (by norm_num) 5).2.1 (by norm_num) (by norm_num),
   (C3_degenerate_ramp_guard 5 8 3 8 (by norm_num) 9).2.2.1 (by norm_num),
   (C3_degenerate_ramp_guard 5 8 5 12 (by norm_num) 4).2.2.2.2.1 (by norm_num),
   (C3_degenerate_ramp_guard 5 8 5 12 (by norm_num) 6).2.2.2.2.2.1 (by norm_num)
     (by norm_num)⟩

/-! ## C8: reversed orientation is the mirrored standard curve -/

/-- C8.  The reversed-orientation ("lower is better", `is_low_temp_opt`)
normalization on a value equals the standard-orientation normalization on the
negated value with the descriptor's bounds negated and swapped — `optimal
(lo, hi)` becoming `(-hi, -lo)` and `tolerance` likewise — cell-wise and for
every input array: the two orientations are mirror-image curves. -/
theorem C8_reversed_orientation_mirror (olo ohi tlo thi : ℚ) (v : Option ℚ)
    (arr : List (Option ℚ)) :
    vectorized_normalize_preference ⟨olo, ohi, tlo, thi, true⟩ v =
      vectorized_normalize_preference ⟨-ohi, -olo, -thi, -tlo, false⟩
        (v.map (fun x => -x)) ∧
    arr.map (vectorized_normalize_preference ⟨olo, ohi, tlo, thi, true⟩) =
      (arr.map (Option.map (fun x => -x))).map
        (vectorized_normalize_preference ⟨-ohi, -olo, -thi, -tlo, false⟩) := by
  constructor
  · cases v <;> rfl
  · rw [List.map_map]
    refine List.map_congr_left fun a _ => ?_
    cases a <;> rfl

/-! ## C9: eddy polarity score (corrected: the dead zone is closed) -/

/-- C9 counterexample.  The claim asserts 0.5 is assigned "only to values in
the open interval (-0.05, 0.05)", but the value 0.05 itself — outside that
open interval — also scores 0.5: the code's dead zone is the closed interval
`[-0.05, 0.05]` because both threshold comparisons are strict. -/
theorem C9_eddy_counterexample :
    vectorized_eddy_score true (some (1/20)) = 1/2 ∧ ¬((1 : ℚ)/20 < 1/20) := by
  constructor
  · norm_num [vectorized_eddy_score]
  · norm_num

/-- C9 amended.  The eddy polarity score maps each cell to exactly one of
{0, 1/2, 1}: values above 0.05 score 1 under the preferred "anticyclonic"
polarity (0 otherwise), values below -0.05 score the opposite, the score is
1/2 exactly on the closed dead zone `[-0.05, 0.05]`, and a missing (NaN)
cell scores 0. -/
theorem C9_eddy_amended (b : Bool) (v : ℚ) :
    vectorized_eddy_score b none = 0 ∧
    (vectorized_eddy_score b (some v) = 0 ∨ vectorized_eddy_score b (some v) = 1/2 ∨
      vectorized_eddy_score b (some v) = 1) ∧
    (vectorized_eddy_score b (some v) = 1/2 ↔ -(1/20) ≤ v ∧ v ≤ 1/20) ∧
    (1/20 < v →
      vectorized_eddy_score b (some v) = (if b then (1 : ℚ) else 0)) ∧
    (v < -(1/20) →
      vectorized_eddy_score b (some v) = (if b then (0 : ℚ) else 1)) := by
  have eddy_some : vectorized_eddy_score b (some v) =
      if v > 1/20 then (if b then (1 : ℚ) else 0)
      else if v < -(1/20) then (if b then (0 : ℚ) else 1)
      else 1/2 := rfl
  refine ⟨rfl, ?_, ?_, ?_, ?_⟩
  · rw [eddy_some]
    split_ifs <;> norm_num
  · rw [eddy_some]
    by_cases h1 : v > 1/20
    · rw [if_pos h1]
      constructor
      · intro h
        cases b <;> norm_num at h
      · intro h
        exact absurd h.2 (not_le.2 h1)
    · rw [if_neg h1]
      by_cases h2 : v < -(1/20)
      · rw [if_pos h2]
        constructor
        · intro h
          cases b <;> norm_num at h
        · intro h
          exact absurd h.1 (not_le.2 (by linarith))
      · rw [if_neg h2]
        exact ⟨fun _ => ⟨by linarith [not_lt.1 h2], not_lt.1 h1⟩, fun _ => rfl⟩
  · intro h
    rw [eddy_some, if_pos h]
  · intro h
    rw [eddy_some, if_neg (by linarith), if_pos h]

/-- Witness for C9 amended at `b = true`, `v = 1/10` and `v = 1/20`. -/
theorem C9_eddy_amended_witness :
    vectorized_eddy_score true (some (1/10)) = (if true then (1 : ℚ) else 0) ∧
    (vectorized_eddy_score true (some (1/20)) = 1/2 ↔
      -(1/20) ≤ (1 : ℚ)/20 ∧ (1 : ℚ)/20 ≤ 1/20) :=
  ⟨(C9_eddy_amended true (1/10)).2.2.2.1 (by norm_num),
   (C9_eddy_amended true (1/20)).2.2.1⟩

/-! ## C4: masking relative to normalization (corrected: mask applied after
fusion, raw samples are normalized unmasked) -/

/-- A grid whose every cell is on land (elevation +100, so the inverted
elevation is -100 and the ocean mask is false) yet carries valid field
values. -/
def landFd : FieldData :=
  { chla := fun _ _ => some 1,
    sst := fun _ _ => some 18,
    ssha := fun _ _ => some (1/10),
    elevation := fun _ _ => some 100 }

/-- C4 counterexample.  The claim requires every raw field sample's
out-of-mask cells to be forced to missing before normalization, which would
make each normalized layer equal `normalize(missing) = 0` at such cells.  In
the code the normalization (app.py lines 308-311) runs on the unmasked
interpolated arrays, so at a land cell with SST 18 the SST layer fed to the
fusion is 1, not 0: the land value does enter ramp computation. -/
theorem C4_mask_counterexample :
    ocean_mask landFd 0 0 = false ∧
    landFd.sst 0 0 = some 18 ∧
    vectorized_normalize_preference ⟨15, 22, 10, 28, false⟩ (landFd.sst 0 0) = 1 ∧
    vectorized_normalize_preference ⟨15, 22, 10, 28, false⟩ none = 0 ∧
    hsi_rat [("SST", 0.35), ("CHL-A", 0.10), ("SSHa", 0.35), ("BATHY", 0.20)]
      ⟨⟨15, 22, 10, 28, false⟩, ⟨0.2, 2.0, 0.1, 5.0, false⟩,
       ⟨0.05, 0.2, -0.1, 0.3, false⟩, ⟨20, 200, 5, 1000, false⟩⟩
      landFd 0 0 = 4/5 := by
  refine ⟨rfl, rfl, ?_, rfl, ?_⟩
  · norm_num [landFd, vectorized_normalize_preference, tentRaw, clip01]
  · have h1 : wget [("SST", (0.35 : ℚ)), ("CHL-A", 0.10), ("SSHa", 0.35), ("BATHY", 0.20)] "SST" = 0.35 := rfl
    have h2 : wget [("SST", (0.35 : ℚ)), ("CHL-A", 0.10), ("SSHa", 0.35), ("BATHY", 0.20)] "CHL-A" = 0.10 := rfl
    have h3 : wget [("SST", (0.35 : ℚ)), ("CHL-A", 0.10), ("SSHa", 0.35), ("BATHY", 0.20)] "SSHa" = 0.35 := rfl
    have h4 : wget [("SST", (0.35 : ℚ)), ("CHL-A", 0.10), ("SSHa", 0.35), ("BATHY", 0.20)] "BATHY" = 0.20 := rfl
    have h5 : wget [("SST", (0.35 : ℚ)), ("CHL-A", 0.10), ("SSHa", 0.35), ("BATHY", 0.20)] "EDDY" = 0 := rfl
    unfold hsi_rat
    rw [h1, h2, h3, h4, h5]
    norm_num [landFd, depth_inv, vectorized_normalize_preference,
      vectorized_eddy_score, tentRaw, clip01]

lemma ocean_mask_congr {fd fd' : FieldData}
    (helev : ∀ i j, fd.elevation i j = fd'.elevation i j) (i j : ℕ) :
    ocean_mask fd i j = ocean_mask fd' i j := by
  unfold ocean_mask depth_inv
  rw [helev]

/-- C4 amended.  The code never masks the raw samples: normalization runs on
the unmasked interpolated arrays and the ocean mask is applied once, after
fusion, so land-cell values do enter ramp computation — but they can never
reach the output.  Formally, two datasets that agree on elevation everywhere
and agree on the other fields at in-mask cells produce identical output
point lists, whatever the land cells hold. -/
theorem C4_amended_land_values_never_reach_output
    (w : List (String × ℚ)) (prefs : Preferences) (month : ℕ)
    (latMin latMax lonMin lonMax : ℚ) (n : ℕ) (fd fd' : FieldData)
    (helev : ∀ i j, fd.elevation i j = fd'.elevation i j)
    (hsst : ∀ i j, ocean_mask fd i j = true → fd.sst i j = fd'.sst i j)
    (hchla : ∀ i j, ocean_mask fd i j = true → fd.chla i j = fd'.chla i j)
    (hssha : ∀ i j, ocean_mask fd i j = true → fd.ssha i j = fd'.ssha i j) :
    results_list w prefs month fd latMin latMax lonMin lonMax n =
      results_list w prefs month fd' latMin latMax lonMin lonMax n := by
  unfold results_list
  refine List.flatMap_congr fun i _ => List.filterMap_congr fun j _ => ?_
  rw [← ocean_mask_congr helev i j]
  by_cases hm : ocean_mask fd i j
  · rw [if_pos hm, if_pos hm]
    have hd : depth_inv fd i j = depth_inv fd' i j := by
      unfold depth_inv
      rw [helev]
    unfold final_hsi hsi_rat
    rw [hsst i j hm, hchla i j hm, hssha i j hm, hd]
  · rw [if_neg hm, if_neg hm]

/-- Witness for C4 amended: perturbing the SST value at a cell of an
all-land grid leaves the (empty) output unchanged. -/
theorem C4_amended_witness :
    results_list [("SST", 1)]
      ⟨⟨15, 22, 10, 28, false⟩, ⟨0.2, 2.0, 0.1, 5.0, false⟩,
       ⟨0.05, 0.2, -0.1, 0.3, false⟩, ⟨20, 200, 5, 1000, false⟩⟩
      8 landFd (-10) (-9) 30 31 1 =
    results_list [("SST", 1)]
      ⟨⟨15, 22, 10, 28, false⟩, ⟨0.2, 2.0, 0.1, 5.0, false⟩,
       ⟨0.05, 0.2, -0.1, 0.3, false⟩, ⟨20, 200, 5, 1000, false⟩⟩
      8 { landFd with sst := fun _ _ => some 99 } (-10) (-9) 30 31 1 :=
  C4_amended_land_values_never_reach_output [("SST", 1)]
    ⟨⟨15, 22, 10, 28, false⟩, ⟨0.2, 2.0, 0.1, 5.0, false⟩,
     ⟨0.05, 0.2, -0.1, 0.3, false⟩, ⟨20, 200, 5, 1000, false⟩⟩
    8 (-10) (-9) 30 31 1 landFd { landFd with sst := fun _ _ => some 99 }
    (fun _ _ => rfl)
    (fun i j hm => by
      simp [ocean_mask, depth_inv, landFd] at hm
      exact absurd hm (by norm_num))
    (fun i j hm => by
      simp [ocean_mask, depth_inv, landFd] at hm
      exact absurd hm (by norm_num))
    (fun i j hm => by
      simp [ocean_mask, depth_inv, landFd] at hm
      exact absurd hm (by norm_num))

/-! ## C5: ocean mask law and row-major output -/

lemma filterMap_guard {α β : Type} (l : List α) (p : α → Bool) (f : α → β) :
    l.filterMap (fun a => if p a then some (f a) else none) = (l.filter p).map f := by
  induction l with
  | nil => rfl
  | cons a t ih =>
      by_cases h : p a <;> simp [List.filterMap_cons, List.filter_cons, h, ih]

lemma product_filter_map {α β γ : Type} (l1 : List α) (l2 : List β)
    (p : α → β → Bool) (f : α → β → γ) :
    ((l1 ×ˢ l2).filter (fun ij => p ij.1 ij.2)).map (fun ij => f ij.1 ij.2) =
      l1.flatMap (fun i => (l2.filter (p i)).map (f i)) := by
  induction l1 with
  | nil => rfl
  | cons a t ih =>
      simp only [List.product_cons, List.filter_append, List.map_append, ih,
        List.flatMap_cons]
      congr 1
      rw [List.filter_map, List.map_map]
      rfl

lemma ocean_mask_iff (fd : FieldData) (i j : ℕ) :
    ocean_mask fd i j = true ↔ ∃ e, fd.elevation i j = some e ∧ 0 < -e := by
  unfold ocean_mask depth_inv
  cases h : fd.elevation i j with
  | none => simp
  | some e => simp

lemma results_list_product (w : List (String × ℚ)) (prefs : Preferences)
    (month : ℕ) (fd : FieldData) (latMin latMax lonMin lonMax : ℚ) (n : ℕ) :
    results_list w prefs month fd latMin latMax lonMin lonMax n =
      (((List.range n) ×ˢ (List.range n)).filter
          (fun ij => ocean_mask fd ij.1 ij.2)).map
        (fun ij => ⟨linspace latMin latMax n ij.1, linspace lonMin lonMax n ij.2,
          final_hsi w prefs month fd ij.1 ij.2⟩) := by
  have hprod := product_filter_map (List.range n) (List.range n)
    (fun i j => ocean_mask fd i j)
    (fun i j => (⟨linspace latMin latMax n i, linspace lonMin lonMax n j,
      final_hsi w prefs month fd i j⟩ : OutPoint))
  refine Eq.trans ?_ hprod.symm
  unfold results_list
  exact List.flatMap_congr fun i _ => filterMap_guard _ _ _

lemma results_list_mem (w : List (String × ℚ)) (prefs : Preferences)
    (month : ℕ) (fd : FieldData) (latMin latMax lonMin lonMax : ℚ) (n : ℕ)
    (pt : OutPoint) :
    pt ∈ results_list w prefs month fd latMin latMax lonMin lonMax n ↔
      ∃ i j, i < n ∧ j < n ∧ ocean_mask fd i j = true ∧
        pt = ⟨linspace latMin latMax n i, linspace lonMin lonMax n j,
          final_hsi w prefs month fd i j⟩ := by
  rw [results_list_product]
  simp only [List.mem_map]
  constructor
  · rintro ⟨⟨i, j⟩, hmem, hpt⟩
    rw [List.mem_filter] at hmem
    obtain ⟨hp, hm⟩ := hmem
    rw [List.mem_product] at hp
    exact ⟨i, j, List.mem_range.1 hp.1, List.mem_range.1 hp.2, hm, hpt.symm⟩
  · rintro ⟨i, j, hi, hj, hm, hpt⟩
    refine ⟨(i, j), ?_, hpt.symm⟩
    rw [List.mem_filter]
    exact ⟨List.mem_product.2 ⟨List.mem_range.2 hi, List.mem_range.2 hj⟩, hm⟩

/-- A grid whose every cell is ocean (elevation -100, inverted 100) with
values optimal for the Great White model and a positive SSHa beyond the eddy
threshold. -/
def uniformOceanFd : FieldData :=
  { chla := fun _ _ => some 1,
    sst := fun _ _ => some 18,
    ssha := fun _ _ => some (1/10),
    elevation := fun _ _ => some (-100) }

/-- A request whose weight override `{"EDDY": 1.0}` sums to 1.0 and passes
the `np.isclose` check, on a 2x2 grid (`n_points = 1` would instead die in
the squeeze/mask assignment, see `squeeze_mask_assign`). -/
def eddyOverrideReq : Request :=
  { latMin := -10, latMax := -9, lonMin := 30, lonMax := 31,
    date := "2025-08-08", sharkType := "Great White Shark",
    weights := [("EDDY", 1)], prefOverrides := [], nPoints := 2 }

/-- The Great White weights after `current_weights.update({"EDDY": 1.0})`. -/
def mergedGwWeights : List (String × ℚ) :=
  dict_update [("SST", 0.35), ("CHL-A", 0.10), ("SSHa", 0.35), ("BATHY", 0.20)]
    [("EDDY", 1)]

/-- The Great White preference table. -/
def gwPrefs : Preferences :=
  ⟨⟨15, 22, 10, 28, false⟩, ⟨0.2, 2.0, 0.1, 5.0, false⟩,
   ⟨0.05, 0.2, -0.1, 0.3, false⟩, ⟨20, 200, 5, 1000, false⟩⟩

/-- The four points the endpoint emits for `eddyOverrideReq` over
`uniformOceanFd`: row-major 2x2 grid, every cell with fused score 2. -/
def eddyPts : List OutPoint :=
  [⟨-10, 30, (2 : ℝ)⟩, ⟨-10, 31, (2 : ℝ)⟩, ⟨-9, 30, (2 : ℝ)⟩, ⟨-9, 31, (2 : ℝ)⟩]

lemma weight_sum_ok_eddy : weight_sum_ok [("EDDY", (1 : ℚ))] = true := by
  unfold weight_sum_ok iscloseTol
  simp only [decide_eq_true_eq, List.map_cons, List.map_nil, List.sum_cons,
    List.sum_nil]
  norm_num

lemma merged_hsi_two (i j : ℕ) :
    final_hsi mergedGwWeights gwPrefs 8 uniformOceanFd i j = 2 := by
  have hseason : wget mergedGwWeights "SEASON" = 0 := rfl
  have h1 : wget mergedGwWeights "SST" = 0.35 := rfl
  have h2 : wget mergedGwWeights "CHL-A" = 0.10 := rfl
  have h3 : wget mergedGwWeights "SSHa" = 0.35 := rfl
  have h4 : wget mergedGwWeights "BATHY" = 0.20 := rfl
  have h5 : wget mergedGwWeights "EDDY" = 1 := rfl
  have hrat : hsi_rat mergedGwWeights gwPrefs uniformOceanFd i j = 2 := by
    unfold hsi_rat
    rw [h1, h2, h3, h4, h5]
    norm_num [uniformOceanFd, gwPrefs, depth_inv, vectorized_normalize_preference,
      vectorized_eddy_score, tentRaw, clip01]
  unfold final_hsi
  rw [hrat, hseason]
  push_cast
  ring

lemma results_eddy :
    results_list mergedGwWeights gwPrefs 8 uniformOceanFd (-10) (-9) 30 31 2 =
      eddyPts := by
  have hr : List.range 2 = [0, 1] := rfl
  have hm : ∀ i j : ℕ, ocean_mask uniformOceanFd i j = true := fun i j => rfl
  unfold results_list
  rw [hr]
  simp only [List.flatMap_cons, List.flatMap_nil, List.append_nil,
    List.filterMap_cons, List.filterMap_nil, hm, if_true]
  norm_num [linspace, merged_hsi_two, eddyPts]

/-- The endpoint accepts `eddyOverrideReq` and emits the four points of
`eddyPts`. -/
lemma calc_eddy_ok :
    calculate_hsi uniformOceanFd eddyOverrideReq =
      HsiResponse.ok eddyPts "HSI computed for 4 points" := by
  have hlk : SHARK_MODELS.lookup eddyOverrideReq.sharkType =
      some { weights := [("SST", 0.35), ("CHL-A", 0.10), ("SSHa", 0.35), ("BATHY", 0.20)],
             preferences := gwPrefs } := rfl
  have hpd : parseDate "2025-08-08" = some ⟨2025, 8, 8, 0, 0, 0⟩ := rfl
  have hdk : (decide (timeKey TIME_START ≤ timeKey ⟨2025, 8, 8, 0, 0, 0⟩) &&
      decide (timeKey ⟨2025, 8, 8, 0, 0, 0⟩ ≤ timeKey TIME_END)) = true := rfl
  have hgd : get_dataset_paths "2025-08-08" =
      Except.ok ("AQUA_MODIS.20250805_20250812.L3m.8D.CHL.chlor_a.4km.NRT.nc",
        "AQUA_MODIS.20250805_20250812.L3m.8D.SST.sst.4km.nc",
        "nrt_global_allsat_phy_l4_20250808_20250814.nc") := rfl
  have hsq : squeeze_mask_assign 2 = Except.ok () := rfl
  unfold calculate_hsi
  rw [hlk]
  simp only [eddyOverrideReq, weight_sum_ok_eddy, List.isEmpty_cons, Bool.not_true,
    Bool.and_false, Bool.false_eq_true, if_false]
  rw [show apply_pref_overrides gwPrefs [] = gwPrefs from rfl]
  rw [show dict_update [("SST", (0.35 : ℚ)), ("CHL-A", 0.10), ("SSHa", 0.35), ("BATHY", 0.20)]
      [("EDDY", 1)] = mergedGwWeights from rfl]
  simp only [hpd, hdk, Bool.not_true, Bool.false_eq_true, if_false, hgd, hsq]
  rw [results_eddy]
  rfl

-- Faithfulness checks for the squeeze and full-timestamp fixes: a 1x1 grid
-- dies in the masked assignment, and a noon timestamp on the last allowed
-- day is out of range.
example :
    calculate_hsi uniformOceanFd { eddyOverrideReq with nPoints := 1 } =
      HsiResponse.serverError
        "too many indices for array: array is 0-dimensional, but 2 were indexed" := by
  have hlk : SHARK_MODELS.lookup
      ({ eddyOverrideReq with nPoints := 1 } : Request).sharkType =
      some { weights := [("SST", 0.35), ("CHL-A", 0.10), ("SSHa", 0.35), ("BATHY", 0.20)],
             preferences := gwPrefs } := rfl
  have hpd : parseDate "2025-08-08" = some ⟨2025, 8, 8, 0, 0, 0⟩ := rfl
  have hdk : (decide (timeKey TIME_START ≤ timeKey ⟨2025, 8, 8, 0, 0, 0⟩) &&
      decide (timeKey ⟨2025, 8, 8, 0, 0, 0⟩ ≤ timeKey TIME_END)) = true := rfl
  have hgd : get_dataset_paths "2025-08-08" =
      Except.ok ("AQUA_MODIS.20250805_20250812.L3m.8D.CHL.chlor_a.4km.NRT.nc",
        "AQUA_MODIS.20250805_20250812.L3m.8D.SST.sst.4km.nc",
        "nrt_global_allsat_phy_l4_20250808_20250814.nc") := rfl
  have hsq : squeeze_mask_assign 1 = Except.error
      "too many indices for array: array is 0-dimensional, but 2 were indexed" := rfl
  unfold calculate_hsi
  rw [hlk]
  simp only [eddyOverrideReq, weight_sum_ok_eddy, List.isEmpty_cons, Bool.not_true,
    Bool.and_false, Bool.false_eq_true, if_false]
  simp only [hpd, hdk, Bool.not_true, Bool.false_eq_true, if_false, hgd, hsq]

example :
    calculate_hsi uniformOceanFd
      { eddyOverrideReq with date := "2025-08-28T12:00", weights := [] } =
      HsiResponse.badRequest "Date out of range" := by
  have hlk : SHARK_MODELS.lookup
      ({ eddyOverrideReq with date := "2025-08-28T12:00", weights := [] } : Request).sharkType =
      some { weights := [("SST", 0.35), ("CHL-A", 0.10), ("SSHa", 0.35), ("BATHY", 0.20)],
             preferences := gwPrefs } := rfl
  have hpd : parseDate "2025-08-28T12:00" = some ⟨2025, 8, 28, 12, 0, 0⟩ := rfl
  have hdk : (!(decide (timeKey TIME_START ≤ timeKey ⟨2025, 8, 28, 12, 0, 0⟩) &&
      decide (timeKey ⟨2025, 8, 28, 12, 0, 0⟩ ≤ timeKey TIME_END))) = true := rfl
  unfold calculate_hsi
  rw [hlk]
  simp only [eddyOverrideReq, List.isEmpty_nil, Bool.not_true, Bool.false_and,
    Bool.false_eq_true, if_false]
  simp only [hpd, hdk, if_true]

/-- C5.  Whenever the endpoint answers 200, the ocean mask holds at exactly
the grid cell positions whose inverted bathymetric elevation (negated
elevation) is strictly positive (a missing elevation cell is out-of-mask,
NaN comparisons being False); and the emitted point list is exactly the
row-major traversal of the grid restricted to in-mask cells, each carrying
its fused score — so a cell whose inverted elevation is not strictly
positive is absent from the output whatever the other layers and weights
hold, and only (finite, in the exact-arithmetic model total) in-mask scores
are emitted.  Requests that never reach the emission loop — in particular a
single-point grid, where the squeeze collapse makes line 331 raise — answer
an error instead of a point list and are outside the 200 case. -/
theorem C5_ocean_mask_law (fd : FieldData) (req : Request) (pts : List OutPoint)
    (msg : String) (hok : calculate_hsi fd req = HsiResponse.ok pts msg) :
    (∀ i j, ocean_mask fd i j = true ↔
      ∃ e, fd.elevation i j = some e ∧ 0 < -e) ∧
    ∃ w prefs month,
      pts = (((List.range req.nPoints) ×ˢ (List.range req.nPoints)).filter
          (fun ij => ocean_mask fd ij.1 ij.2)).map
        (fun ij => ⟨linspace req.latMin req.latMax req.nPoints ij.1,
          linspace req.lonMin req.lonMax req.nPoints ij.2,
          final_hsi w prefs month fd ij.1 ij.2⟩) ∧
      ∀ pt, pt ∈ pts ↔ ∃ i j, i < req.nPoints ∧ j < req.nPoints ∧
        ocean_mask fd i j = true ∧
        pt = ⟨linspace req.latMin req.latMax req.nPoints i,
          linspace req.lonMin req.lonMax req.nPoints j,
          final_hsi w prefs month fd i j⟩ := by
  refine ⟨ocean_mask_iff fd, ?_⟩
  unfold calculate_hsi at hok
  cases hlk : SHARK_MODELS.lookup req.sharkType with
  | none =>
      simp only [hlk] at hok
      exact absurd hok (fun h => HsiResponse.noConfusion h)
  | some model =>
      simp only [hlk] at hok
      by_cases hcond : (!req.weights.isEmpty && !weight_sum_ok req.weights) = true
      · rw [if_pos hcond] at hok
        exact absurd hok (fun h => HsiResponse.noConfusion h)
      · rw [if_neg hcond] at hok
        cases hpd : parseDate req.date with
        | none =>
            simp only [hpd] at hok
            exact absurd hok (fun h => HsiResponse.noConfusion h)
        | some d =>
            simp only [hpd] at hok
            by_cases hdr : (!(decide (timeKey TIME_START ≤ timeKey d) &&
                decide (timeKey d ≤ timeKey TIME_END))) = true
            · rw [if_pos hdr] at hok
              exact absurd hok (fun h => HsiResponse.noConfusion h)
            · rw [if_neg hdr] at hok
              cases hgd : get_dataset_paths req.date with
              | error m =>
                  simp only [hgd] at hok
                  exact absurd hok (fun h => HsiResponse.noConfusion h)
              | ok t =>
                  simp only [hgd] at hok
                  cases hsq : squeeze_mask_assign req.nPoints with
                  | error m =>
                      simp only [hsq] at hok
                      exact absurd hok (fun h => HsiResponse.noConfusion h)
                  | ok u =>
                      simp only [hsq] at hok
                      injection hok with h1 h2
                      refine ⟨dict_update model.weights req.weights,
                        apply_pref_overrides model.preferences req.prefOverrides,
                        d.month, ?_, ?_⟩
                      · rw [← h1]
                        exact results_list_product _ _ _ fd req.latMin req.latMax
                          req.lonMin req.lonMax req.nPoints
                      · intro pt
                        rw [← h1]
                        exact results_list_mem _ _ _ fd req.latMin req.latMax
                          req.lonMin req.lonMax req.nPoints pt

/-- Witness for C5 at the concrete accepted request `eddyOverrideReq` over
`uniformOceanFd`, whose 200 answer carries `eddyPts`. -/
theorem C5_ocean_mask_law_witness :
    (∀ i j, ocean_mask uniformOceanFd i j = true ↔
      ∃ e, uniformOceanFd.elevation i j = some e ∧ 0 < -e) ∧
    ∃ w prefs month,
      eddyPts = (((List.range eddyOverrideReq.nPoints) ×ˢ
            (List.range eddyOverrideReq.nPoints)).filter
          (fun ij => ocean_mask uniformOceanFd ij.1 ij.2)).map
        (fun ij => ⟨linspace eddyOverrideReq.latMin eddyOverrideReq.latMax
            eddyOverrideReq.nPoints ij.1,
          linspace eddyOverrideReq.lonMin eddyOverrideReq.lonMax
            eddyOverrideReq.nPoints ij.2,
          final_hsi w prefs month uniformOceanFd ij.1 ij.2⟩) ∧
      ∀ pt, pt ∈ eddyPts ↔ ∃ i j, i < eddyOverrideReq.nPoints ∧
        j < eddyOverrideReq.nPoints ∧ ocean_mask uniformOceanFd i j = true ∧
        pt = ⟨linspace eddyOverrideReq.latMin eddyOverrideReq.latMax
            eddyOverrideReq.nPoints i,
          linspace eddyOverrideReq.lonMin eddyOverrideReq.lonMax
            eddyOverrideReq.nPoints j,
          final_hsi w prefs month uniformOceanFd i j⟩ :=
  C5_ocean_mask_law uniformOceanFd eddyOverrideReq eddyPts
    "HSI computed for 4 points" calc_eddy_ok

/-! ## C10: seasonal layer is constant 1 -/

lemma season_score_scalar_self (m : ℕ) : season_score_scalar m m = 1 := by
  unfold season_score_scalar
  rw [sub_self, Real.cos_zero]
  norm_num

lemma season_score_scalar_mem (peak m : ℕ) :
    0 ≤ season_score_scalar peak m ∧ season_score_scalar peak m ≤ 1 := by
  unfold season_score_scalar
  constructor
  · nlinarith [Real.neg_one_le_cos (2 * Real.pi * (peak / 12) - 2 * Real.pi * (m / 12))]
  · nlinarith [Real.cos_le_one (2 * Real.pi * (peak / 12) - 2 * Real.pi * (m / 12))]

/-- C10.  The pipeline computes the seasonal scalar with
`peak_month = target_date.month`, so `season_score_scalar` is evaluated at
equal peak and month and returns exactly 1; hence the fused score of every
cell is the rational five-layer part plus exactly the "SEASON" weight, and a
caller-supplied "SEASON" weight override is the weight that is picked up. -/
theorem C10_season_constant_one (m : ℕ) (w : List (String × ℚ))
    (prefs : Preferences) (fd : FieldData) (i j : ℕ)
    (base uw : List (String × ℚ)) (w0 : ℚ) :
    season_score_scalar m m = 1 ∧
    final_hsi w prefs m fd i j =
      (hsi_rat w prefs fd i j : ℝ) + (wget w "SEASON" : ℝ) ∧
    wget (dict_update base (("SEASON", w0) :: uw)) "SEASON" = w0 := by
  refine ⟨season_score_scalar_self m, ?_, rfl⟩
  unfold final_hsi
  rw [season_score_scalar_self, mul_one]

/-! ## C2: hsi range (corrected: merged weights can exceed 1) -/

/-- C2 counterexample.  The request overrides the weights with
`{"EDDY": 1.0}`, which sums to 1.0 and is accepted — but
`current_weights.update(user_weights)` merges the override into the four
default Great White weights (total 1.0) instead of replacing them, so the
effective weights sum to 2.0: on a 2x2 all-ocean, all-optimal grid the
endpoint answers 200 and every emitted record carries hsi = 2, outside
[0, 1]. -/
theorem C2_hsi_range_counterexample :
    calculate_hsi uniformOceanFd eddyOverrideReq =
      HsiResponse.ok eddyPts "HSI computed for 4 points" ∧
    weight_sum_ok eddyOverrideReq.weights = true ∧
    (⟨-10, 30, (2 : ℝ)⟩ : OutPoint) ∈ eddyPts ∧
    ¬ ((2 : ℝ) ≤ 1) :=
  ⟨calc_eddy_ok, weight_sum_ok_eddy, List.mem_cons_self _ _, by norm_num⟩

lemma eddy_mem_unit (b : Bool) (v : Option ℚ) :
    0 ≤ vectorized_eddy_score b v ∧ vectorized_eddy_score b v ≤ 1 := by
  cases v with
  | none => norm_num [vectorized_eddy_score]
  | some x =>
      have e : vectorized_eddy_score b (some x) =
          if x > 1/20 then (if b then (1 : ℚ) else 0)
          else if x < -(1/20) then (if b then (0 : ℚ) else 1)
          else 1/2 := rfl
      rw [e]
      split_ifs <;> norm_num

lemma wget_nonneg {w : List (String × ℚ)} (hw : ∀ p ∈ w, 0 ≤ p.2) (k : String) :
    0 ≤ wget w k := by
  induction w with
  | nil => exact le_refl 0
  | cons a t ih =>
      obtain ⟨ka, qa⟩ := a
      unfold wget
      rw [List.lookup]
      cases hbeq : k == ka with
      | true =>
          simpa using hw (ka, qa) (List.mem_cons_self _ _)
      | false =>
          exact ih fun p hp => hw p (List.mem_cons_of_mem _ hp)

/-- C2 amended.  Every fused hsi value lies in `[0, S]` where `S` is the sum
of the six effective weights actually used by the fusion, provided those
weights are nonnegative; it lies in `[0, 1]` only when `S ≤ 1`.  (Because
`dict.update` merges a caller override into the species defaults instead of
replacing them, an accepted override summing to 1.0 can make `S` exceed 1
and so push hsi above 1, as `C2`'s counterexample shows.) -/
theorem C2_amended_hsi_bounded (w : List (String × ℚ)) (prefs : Preferences)
    (month : ℕ) (fd : FieldData) (i j : ℕ) (hw : ∀ p ∈ w, 0 ≤ p.2) :
    0 ≤ final_hsi w prefs month fd i j ∧
    final_hsi w prefs month fd i j ≤
      ((wget w "SST" + wget w "CHL-A" + wget w "SSHa" + wget w "BATHY" +
        wget w "EDDY" + wget w "SEASON" : ℚ) : ℝ) := by
  obtain ⟨a1, b1⟩ := normalize_mem_unit prefs.sstP (fd.sst i j)
  obtain ⟨a2, b2⟩ := normalize_mem_unit prefs.chlaP (fd.chla i j)
  obtain ⟨a3, b3⟩ := normalize_mem_unit prefs.sshaP (fd.ssha i j)
  obtain ⟨a4, b4⟩ := normalize_mem_unit prefs.bathyP (depth_inv fd i j)
  obtain ⟨a5, b5⟩ := eddy_mem_unit true (fd.ssha i j)
  obtain ⟨a6, b6⟩ := season_score_scalar_mem month month
  have w1 := wget_nonneg hw "SST"
  have w2 := wget_nonneg hw "CHL-A"
  have w3 := wget_nonneg hw "SSHa"
  have w4 := wget_nonneg hw "BATHY"
  have w5 := wget_nonneg hw "EDDY"
  have w6 := wget_nonneg hw "SEASON"
  unfold final_hsi hsi_rat
  push_cast
  constructor
  · have p1 : (0 : ℝ) ≤ (wget w "SST" : ℝ) *
        (vectorized_normalize_preference prefs.sstP (fd.sst i j) : ℝ) :=
      mul_nonneg (by exact_mod_cast w1) (by exact_mod_cast a1)
    have p2 : (0 : ℝ) ≤ (wget w "CHL-A" : ℝ) *
        (vectorized_normalize_preference prefs.chlaP (fd.chla i j) : ℝ) :=
      mul_nonneg (by exact_mod_cast w2) (by exact_mod_cast a2)
    have p3 : (0 : ℝ) ≤ (wget w "SSHa" : ℝ) *
        (vectorized_normalize_preference prefs.sshaP (fd.ssha i j) : ℝ) :=
      mul_nonneg (by exact_mod_cast w3) (by exact_mod_cast a3)
    have p4 : (0 : ℝ) ≤ (wget w "BATHY" : ℝ) *
        (vectorized_normalize_preference prefs.bathyP (depth_inv fd i j) : ℝ) :=
      mul_nonneg (by exact_mod_cast w4) (by exact_mod_cast a4)
    have p5 : (0 : ℝ) ≤ (wget w "EDDY" : ℝ) *
        (vectorized_eddy_score true (fd.ssha i j) : ℝ) :=
      mul_nonneg (by exact_mod_cast w5) (by exact_mod_cast a5)
    have p6 : (0 : ℝ) ≤ (wget w "SEASON" : ℝ) * season_score_scalar month month :=
      mul_nonneg (by exact_mod_cast w6) a6
    linarith
  · have q1 : (wget w "SST" : ℝ) *
        (vectorized_normalize_preference prefs.sstP (fd.sst i j) : ℝ) ≤
        (wget w "SST" : ℝ) :=
      mul_le_of_le_one_right (by exact_mod_cast w1) (by exact_mod_cast b1)
    have q2 : (wget w "CHL-A" : ℝ) *
        (vectorized_normalize_preference prefs.chlaP (fd.chla i j) : ℝ) ≤
        (wget w "CHL-A" : ℝ) :=
      mul_le_of_le_one_right (by exact_mod_cast w2) (by exact_mod_cast b2)
    have q3 : (wget w "SSHa" : ℝ) *
        (vectorized_normalize_preference prefs.sshaP (fd.ssha i j) : ℝ) ≤
        (wget w "SSHa" : ℝ) :=
      mul_le_of_le_one_right (by exact_mod_cast w3) (by exact_mod_cast b3)
    have q4 : (wget w "BATHY" : ℝ) *
        (vectorized_normalize_preference prefs.bathyP (depth_inv fd i j) : ℝ) ≤
        (wget w "BATHY" : ℝ) :=
      mul_le_of_le_one_right (by exact_mod_cast w4) (by exact_mod_cast b4)
    have q5 : (wget w "EDDY" : ℝ) *
        (vectorized_eddy_score true (fd.ssha i j) : ℝ) ≤ (wget w "EDDY" : ℝ) :=
      mul_le_of_le_one_right (by exact_mod_cast w5) (by exact_mod_cast b5)
    have q6 : (wget w "SEASON" : ℝ) * season_score_scalar month month ≤
        (wget w "SEASON" : ℝ) :=
      mul_le_of_le_one_right (by exact_mod_cast w6) b6
    linarith

/-- Witness for C2 amended at the default Great White weights on the
all-ocean grid. -/
theorem C2_amended_witness :
    0 ≤ final_hsi [("SST", 0.35), ("CHL-A", 0.10), ("SSHa", 0.35), ("BATHY", 0.20)]
        gwPrefs 8 uniformOceanFd 0 0 ∧
    final_hsi [("SST", 0.35), ("CHL-A", 0.10), ("SSHa", 0.35), ("BATHY", 0.20)]
        gwPrefs 8 uniformOceanFd 0 0 ≤
      ((wget [("SST", 0.35), ("CHL-A", 0.10), ("SSHa", 0.35), ("BATHY", 0.20)] "SST" +
        wget [("SST", 0.35), ("CHL-A", 0.10), ("SSHa", 0.35), ("BATHY", 0.20)] "CHL-A" +
        wget [("SST", 0.35), ("CHL-A", 0.10), ("SSHa", 0.35), ("BATHY", 0.20)] "SSHa" +
        wget [("SST", 0.35), ("CHL-A", 0.10), ("SSHa", 0.35), ("BATHY", 0.20)] "BATHY" +
        wget [("SST", 0.35), ("CHL-A", 0.10), ("SSHa", 0.35), ("BATHY", 0.20)] "EDDY" +
        wget [("SST", 0.35), ("CHL-A", 0.10), ("SSHa", 0.35), ("BATHY", 0.20)] "SEASON" : ℚ) : ℝ) :=
  C2_amended_hsi_bounded [("SST", 0.35), ("CHL-A", 0.10), ("SSHa", 0.35), ("BATHY", 0.20)]
    gwPrefs 8 uniformOceanFd 0 0
    (by intro p hp; fin_cases hp <;> norm_num)

/-! ## C6: weight-sum validation -/

/-- C6.  For a request naming a known species and supplying a nonempty
weight override: when the override fails the `np.isclose(sum, 1.0)` check
the endpoint answers exactly the 400 rejection "Weights must sum to 1.0",
and the answer is independent of every dataset value — no scoring touches
the data; when the override passes the check the request is never rejected
with that message. -/
theorem C6_weight_sum_validation (fd fd' : FieldData) (req : Request)
    (hs : (SHARK_MODELS.lookup req.sharkType).isSome = true)
    (hw : req.weights ≠ []) :
    (weight_sum_ok req.weights = false →
      calculate_hsi fd req = HsiResponse.badRequest "Weights must sum to 1.0" ∧
      calculate_hsi fd req = calculate_hsi fd' req) ∧
    (weight_sum_ok req.weights = true →
      calculate_hsi fd req ≠ HsiResponse.badRequest "Weights must sum to 1.0") := by
  obtain ⟨model, hm⟩ := Option.isSome_iff_exists.mp hs
  have hne : req.weights.isEmpty = false := by
    cases h : req.weights with
    | nil => exact absurd h hw
    | cons a t => rfl
  constructor
  · intro hws
    have hcond : (!req.weights.isEmpty && !weight_sum_ok req.weights) = true := by
      rw [hne, hws]
      rfl
    constructor
    · simp only [calculate_hsi, hm, hcond, if_true]
    · simp only [calculate_hsi, hm, hcond, if_true]
  · intro hws
    have hcond : (!req.weights.isEmpty && !weight_sum_ok req.weights) = false := by
      rw [hws]
      exact Bool.and_false _
    simp only [calculate_hsi, hm, hcond, Bool.false_eq_true, if_false]
    cases hpd : parseDate req.date with
    | none => exact fun h => HsiResponse.noConfusion h
    | some d =>
        dsimp only
        split_ifs with hdr
        · intro h
          injection h with h'
          exact absurd h' (by decide)
        · cases hgd : get_dataset_paths req.date with
          | error msg => exact fun h => HsiResponse.noConfusion h
          | ok t =>
              cases hsq : squeeze_mask_assign req.nPoints with
              | error m => exact fun h => HsiResponse.noConfusion h
              | ok u => exact fun h => HsiResponse.noConfusion h

/-- Witness for C6: the documented scenario `{"SST": 0.6, "CHL-A": 0.5}`
(sum 1.1) is rejected with the weight-sum message independently of the data,
while `{"EDDY": 1.0}` is never rejected with it. -/
theorem C6_weight_sum_validation_witness :
    (calculate_hsi uniformOceanFd
        { eddyOverrideReq with weights := [("SST", 0.6), ("CHL-A", 0.5)] } =
      HsiResponse.badRequest "Weights must sum to 1.0" ∧
     calculate_hsi uniformOceanFd
        { eddyOverrideReq with weights := [("SST", 0.6), ("CHL-A", 0.5)] } =
      calculate_hsi landFd
        { eddyOverrideReq with weights := [("SST", 0.6), ("CHL-A", 0.5)] }) ∧
    calculate_hsi uniformOceanFd eddyOverrideReq ≠
      HsiResponse.badRequest "Weights must sum to 1.0" :=
  ⟨(C6_weight_sum_validation uniformOceanFd landFd
      { eddyOverrideReq with weights := [("SST", 0.6), ("CHL-A", 0.5)] }
      rfl (by simp)).1
      (by unfold weight_sum_ok iscloseTol
          simp only [decide_eq_false_iff_not, List.map_cons, List.map_nil,
            List.sum_cons, List.sum_nil]
          norm_num [abs_of_pos]),
   (C6_weight_sum_validation uniformOceanFd landFd eddyOverrideReq
      rfl (by simp [eddyOverrideReq])).2 weight_sum_ok_eddy⟩

/-! ## C7: unmapped in-range date (corrected: surfaced as a 500, not as the
validation class) -/

/-- A request whose date string parses to midnight on 2025-08-15 — inside
the supported range — but, not being the plain `YYYY-MM-DD` form, has no
`FILE_MAP` entry. -/
def unmappedDateReq : Request :=
  { latMin := -10, latMax := -9, lonMin := 30, lonMax := 31,
    date := "2025-08-15T00:00", sharkType := "Great White Shark",
    weights := [], prefOverrides := [], nPoints := 2 }

lemma unmapped_date_serverError (fd : FieldData) (req : Request) (d : Timestamp)
    (hs : (SHARK_MODELS.lookup req.sharkType).isSome = true)
    (hw : req.weights = [] ∨ weight_sum_ok req.weights = true)
    (hpd : parseDate req.date = some d)
    (hd1 : timeKey TIME_START ≤ timeKey d)
    (hd2 : timeKey d ≤ timeKey TIME_END)
    (hfm : FILE_MAP.lookup req.date = none) :
    calculate_hsi fd req =
      HsiResponse.serverError ("No mapped files for " ++ req.date) ∧
    (calculate_hsi fd req).isValidationError = false := by
  obtain ⟨model, hm⟩ := Option.isSome_iff_exists.mp hs
  have hcond : (!req.weights.isEmpty && !weight_sum_ok req.weights) = false := by
    rcases hw with hw | hw
    · rw [hw]
      rfl
    · rw [hw]
      exact Bool.and_false _
  have hdr : (!(decide (timeKey TIME_START ≤ timeKey d) &&
      decide (timeKey d ≤ timeKey TIME_END))) = false := by
    rw [decide_eq_true hd1, decide_eq_true hd2]
    rfl
  have hgd : get_dataset_paths req.date =
      Except.error ("No mapped files for " ++ req.date) := by
    unfold get_dataset_paths
    rw [hfm]
  have hmain : calculate_hsi fd req =
      HsiResponse.serverError ("No mapped files for " ++ req.date) := by
    simp only [calculate_hsi, hm, hcond, Bool.false_eq_true, if_false, hpd]
    rw [hdr]
    simp only [Bool.false_eq_true, if_false, hgd]
  exact ⟨hmain, by rw [hmain]; rfl⟩

/-- C7 amended.  A request passing the species and weight checks whose date
parses to a timestamp inside `[TIME_START, TIME_END]` but whose raw string
has no `FILE_MAP` entry fails with the distinct message
`"No mapped files for <date>"` — but through the endpoint's blanket
exception handler (a 500 server-fault response), not through the validation
(400) class used for bad input. -/
theorem C7_unmapped_date_amended (fd : FieldData) (req : Request) (d : Timestamp)
    (hs : (SHARK_MODELS.lookup req.sharkType).isSome = true)
    (hw : req.weights = [] ∨ weight_sum_ok req.weights = true)
    (hpd : parseDate req.date = some d)
    (hd1 : timeKey TIME_START ≤ timeKey d)
    (hd2 : timeKey d ≤ timeKey TIME_END)
    (hfm : FILE_MAP.lookup req.date = none) :
    calculate_hsi fd req =
      HsiResponse.serverError ("No mapped files for " ++ req.date) ∧
    (calculate_hsi fd req).isValidationError = false :=
  unmapped_date_serverError fd req d hs hw hpd hd1 hd2 hfm

/-- C7 counterexample.  The concrete request dated `2025-08-15T00:00` —
in range once parsed, unmapped as a raw string — receives the blanket
handler's 500 response carrying the `ValueError` text, which is not a
validation (400) response: the claim that such requests fail "with the same
error class as bad input" is false. -/
theorem C7_unmapped_date_counterexample :
    calculate_hsi uniformOceanFd unmappedDateReq =
      HsiResponse.serverError "No mapped files for 2025-08-15T00:00" ∧
    (calculate_hsi uniformOceanFd unmappedDateReq).isValidationError = false ∧
    parseDate unmappedDateReq.date = some ⟨2025, 8, 15, 0, 0, 0⟩ ∧
    timeKey TIME_START ≤ timeKey ⟨2025, 8, 15, 0, 0, 0⟩ ∧
    timeKey ⟨2025, 8, 15, 0, 0, 0⟩ ≤ timeKey TIME_END ∧
    FILE_MAP.lookup unmappedDateReq.date = none := by
  have h := unmapped_date_serverError uniformOceanFd unmappedDateReq
    ⟨2025, 8, 15, 0, 0, 0⟩ rfl (Or.inl rfl) rfl (by decide) (by decide) rfl
  exact ⟨h.1, h.2, rfl, by decide, by decide, rfl⟩

/-- Witness for C7 amended at the dataset-independent concrete request. -/
theorem C7_unmapped_date_amended_witness :
    calculate_hsi landFd unmappedDateReq =
      HsiResponse.serverError ("No mapped files for " ++ unmappedDateReq.date) ∧
    (calculate_hsi landFd unmappedDateReq).isValidationError = false :=
  C7_unmapped_date_amended landFd unmappedDateReq ⟨2025, 8, 15, 0, 0, 0⟩
    rfl (Or.inl rfl) rfl (by decide) (by decide) rfl
